import Mathlib

/-!
Shallow embedding of `openfl/transport/grpc/aggregator_client.py`
(class `AggregatorGRPCClient` and its decorators), together with theorems
settling the specified behaviour of the retry interceptor, the facade-level
resend loop, the atomic connection lifecycle, response-header validation and
the terminal-failure error handler.

The remote server and the transport are modelled as an oracle: a finite list
of results, one per invocation of the wrapped gRPC continuation.  A function
that loops until the oracle is exhausted returns `none` in that case.
-/

namespace OpenFL

/-- Status codes of `grpc.StatusCode` that the client distinguishes, plus a few
representative others. -/
inductive StatusCode where
  | unavailable
  | unknown
  | unauthenticated
  | deadlineExceeded
  | internal
  | permissionDenied
  deriving DecidableEq

/-- Printed form of a status code, as `f"{error.code()}"` renders it in Python. -/
def codeName : StatusCode → String
  | StatusCode.unavailable => "StatusCode.UNAVAILABLE"
  | StatusCode.unknown => "StatusCode.UNKNOWN"
  | StatusCode.unauthenticated => "StatusCode.UNAUTHENTICATED"
  | StatusCode.deadlineExceeded => "StatusCode.DEADLINE_EXCEEDED"
  | StatusCode.internal => "StatusCode.INTERNAL"
  | StatusCode.permissionDenied => "StatusCode.PERMISSION_DENIED"

/-- Result of one invocation of the wrapped gRPC continuation: either a server
response or a transport failure (`grpc.RpcError`) carrying a status code and a
detail string. -/
inductive CallResult (α : Type) where
  | ok (a : α)
  | rpcError (code : StatusCode) (details : String)
  deriving DecidableEq

/-- Python truthiness of `self.status_for_retry`
(`RetryOnRpcErrorClientInterceptor.__init__` stores an
`Optional[Tuple[grpc.StatusCode]]`, default `None`): falsy when absent or
empty. -/
def statusTupleTruthy : Option (List StatusCode) → Bool
  | none => false
  | some l => decide (l ≠ [])

/-- The guard of `_intercept_call`:
`if self.status_for_retry and response.code() not in self.status_for_retry`,
under which the failure is returned immediately without a retry. -/
def returnWithoutRetry (sfr : Option (List StatusCode)) (c : StatusCode) : Bool :=
  statusTupleTruthy sfr && decide (c ∉ sfr.getD [])

/-- Embedding of `RetryOnRpcErrorClientInterceptor._intercept_call`.  The
continuation is modelled by the oracle list of its successive results.  The
`while True` loop: on a response that is an `RpcError`, either return it
(guard `returnWithoutRetry`) or invoke `self.sleeping_policy.sleep()` and
retry; on any other response, return it.  The result carries the number of
backoff sleeps performed, the returned result, and the unconsumed tail of the
oracle; `none` means the loop was still running when the oracle ran out. -/
def interceptCall {α : Type} (sfr : Option (List StatusCode)) :
    List (CallResult α) → Option (Nat × CallResult α × List (CallResult α))
  | [] => none
  | CallResult.ok a :: rest => some (0, CallResult.ok a, rest)
  | CallResult.rpcError c d :: rest =>
    if returnWithoutRetry sfr c then
      some (0, CallResult.rpcError c d, rest)
    else
      match interceptCall sfr rest with
      | some (n, r, rest2) => some (n + 1, r, rest2)
      | none => none

/-- The identity header `aggregator_pb2.MessageHeader` with its four string
fields. -/
structure MessageHeader where
  sender : String
  receiver : String
  federationUuid : String
  singleColCertCommonName : String
  deriving DecidableEq

/-- A transport channel handle: a generation number distinguishing each freshly
created channel, and whether it is open.  `channel.close()` is idempotent. -/
structure Channel where
  gen : Nat
  isOpen : Bool
  deriving DecidableEq

/-- The fields of an `AggregatorGRPCClient` instance as assigned in
`__init__`: the connection target and security configuration, the channel, the
last stamped header, the expected identities, and the stub (modelled by the
generation of the channel it was built on). -/
structure ClientState where
  uri : String
  tls : Bool
  disableClientAuth : Bool
  rootCertificate : Option String
  certificate : Option String
  privateKey : Option String
  channel : Channel
  header : Option MessageHeader
  aggregatorUuid : Option String
  federationUuid : Option String
  singleColCertCommonName : Option String
  stub : Nat
  deriving DecidableEq

/-- Python `x or d` on an optional string `x`: the default when `x` is absent
or empty (falsy), otherwise `x` itself. -/
def pyOr (o : Option String) (d : String) : String :=
  match o with
  | none => d
  | some s => if s = "" then d else s

/-- Python `str` rendering of an optional string, for failure messages. -/
def pyStr : Option String → String
  | none => "None"
  | some s => s

/-- Python equality between a (proto) string field and an optional configured
string: `x == y` is `False` whenever `y` is `None`. -/
def strEqOpt (x : String) (y : Option String) : Bool :=
  match y with
  | none => false
  | some s => decide (x = s)

/-- Embedding of `AggregatorGRPCClient.disconnect`: close the channel (the
debug log line is tracked separately in `reconnectEvents`). -/
def disconnect (s : ClientState) : ClientState :=
  { s with channel := { s.channel with isOpen := false } }

/-- Embedding of `AggregatorGRPCClient.reconnect`: close the current channel
(idempotent), create a new channel for the same uri and security
configuration, and rebuild the stub on it.  Credential loading in
`create_tls_channel` is modelled as succeeding; the reachable-from-spec
failure there (unreadable credential files) is outside every claim treated
here. -/
def reconnect (s : ClientState) : ClientState :=
  let s1 := disconnect s
  let newChannel : Channel := { gen := s1.channel.gen + 1, isOpen := true }
  { s1 with channel := newChannel, stub := newChannel.gen }

/-- Embedding of `AggregatorGRPCClient._set_header`: stamp
`self.header` with sender the collaborator name, receiver the aggregator uuid,
the federation uuid, and `self.single_col_cert_common_name or ""`.  The
configured optional identities are written with their configured value
(`Option.getD ""` for the two uuids, which the source passes directly). -/
def setHeader (s : ClientState) (collaboratorName : String) : ClientState :=
  { s with header := some {
      sender := collaboratorName,
      receiver := s.aggregatorUuid.getD "",
      federationUuid := s.federationUuid.getD "",
      singleColCertCommonName := pyOr s.singleColCertCommonName "" } }

/-- The header field names, in the order `validate_response` checks them. -/
inductive HeaderField where
  | receiver
  | sender
  | federation
  | commonName
  deriving DecidableEq

/-- The data of the spec failure `HeaderMismatchError(field, expected, actual)`
raised by the first failing check of `validate_response`. -/
structure HeaderMismatch where
  field : HeaderField
  expected : String
  actual : String
  deriving DecidableEq

/-- Embedding of `AggregatorGRPCClient.validate_response`, with `check_equal`
modelled from the spec: `check_equal` (imported from `openfl.utilities`, not
under `src/`) raises on inequality, and per the spec `validate` fails fast
with `HeaderMismatchError(field, expected, actual)` on the first violation.
The raise is modelled as returning `some mismatch`; `none` is success.  The
four checks, in source order: receiver against the collaborator name, sender
against the aggregator uuid, federation uuid, and the common name against
`self.single_col_cert_common_name or ""`. -/
def validateResponse (s : ClientState) (h : MessageHeader)
    (collaboratorName : String) : Option HeaderMismatch :=
  if h.receiver = collaboratorName then
    if strEqOpt h.sender s.aggregatorUuid then
      if strEqOpt h.federationUuid s.federationUuid then
        if h.singleColCertCommonName = pyOr s.singleColCertCommonName "" then
          none
        else
          some { field := HeaderField.commonName,
                 expected := pyOr s.singleColCertCommonName "",
                 actual := h.singleColCertCommonName }
      else
        some { field := HeaderField.federation,
               expected := pyStr s.federationUuid,
               actual := h.federationUuid }
    else
      some { field := HeaderField.sender,
             expected := pyStr s.aggregatorUuid,
             actual := h.sender }
  else
    some { field := HeaderField.receiver,
           expected := collaboratorName,
           actual := h.receiver }

/-- Outcome of one invocation of an operation body: a returned value, a raised
`grpc.RpcError`, or a raised header-validation failure (the `ValueError` of
`check_equal`, which is not a `grpc.RpcError`). -/
inductive OpOutcome (α : Type) where
  | ok (a : α)
  | rpcFailure (code : StatusCode) (details : String)
  | validationFailure (m : HeaderMismatch)
  deriving DecidableEq

/-- One invocation of the body of a header-validated operation
(`get_tasks`, `get_aggregated_tensor`, `send_local_task_results`,
`connectivity_check`, the admin operations): `_set_header`, the stub call
routed through `interceptCall`, then `validate_response` on a response.  A
transport failure returned by the interceptor is raised by the stub call.
`extract` builds the returned value from the response and `respHeader`
projects its header.  Returns the updated state, the number of backoff sleeps,
the outcome, and the unconsumed oracle. -/
def opAttempt {ρ α : Type} (sfr : Option (List StatusCode)) (extract : ρ → α)
    (respHeader : ρ → MessageHeader) (s : ClientState) (name : String)
    (stream : List (CallResult ρ)) :
    Option (ClientState × Nat × OpOutcome α × List (CallResult ρ)) :=
  let s1 := setHeader s name
  match interceptCall sfr stream with
  | none => none
  | some (n, CallResult.rpcError c d, rest) =>
    some (s1, n, OpOutcome.rpcFailure c d, rest)
  | some (n, CallResult.ok resp, rest) =>
    match validateResponse s1 (respHeader resp) name with
    | some m => some (s1, n, OpOutcome.validationFailure m, rest)
    | none => some (s1, n, OpOutcome.ok (extract resp), rest)

/-- Embedding of the `while True` loop of `_resend_data_on_reconnection`
applied to an operation body: re-invoke the body on any raised `RpcError`
except `UNAUTHENTICATED`, which is re-raised; a raised validation failure is
not an `RpcError` and propagates; a returned value breaks the loop.  Each body
invocation consumes at least one oracle element, so the loop makes at most
`stream.length + 1` invocations before the oracle is exhausted; the `fuel`
argument makes that bound structural, and `resendLoopRun` supplies it. -/
def resendLoopAux {ρ α : Type} (sfr : Option (List StatusCode)) (extract : ρ → α)
    (respHeader : ρ → MessageHeader) :
    Nat → ClientState → String → List (CallResult ρ) →
      Option (ClientState × Nat × OpOutcome α)
  | 0, _, _, _ => none
  | Nat.succ fuel, s, name, stream =>
    match opAttempt sfr extract respHeader s name stream with
    | none => none
    | some (s1, n, OpOutcome.ok a, _) => some (s1, n, OpOutcome.ok a)
    | some (s1, n, OpOutcome.validationFailure m, _) =>
      some (s1, n, OpOutcome.validationFailure m)
    | some (s1, n, OpOutcome.rpcFailure c d, rest) =>
      if c = StatusCode.unauthenticated then
        some (s1, n, OpOutcome.rpcFailure c d)
      else
        match resendLoopAux sfr extract respHeader fuel s1 name rest with
        | some (s2, n2, out2) => some (s2, n + n2, out2)
        | none => none

/-- The resend loop of `_resend_data_on_reconnection` around an operation
body, run against a finite oracle. -/
def resendLoopRun {ρ α : Type} (sfr : Option (List StatusCode)) (extract : ρ → α)
    (respHeader : ρ → MessageHeader) (s : ClientState) (name : String)
    (stream : List (CallResult ρ)) : Option (ClientState × Nat × OpOutcome α) :=
  resendLoopAux sfr extract respHeader (stream.length + 1) s name stream

/-- Embedding of `_atomic_connection` around a resend-wrapped operation
(`get_tasks`, `get_aggregated_tensor`, `send_local_task_results`):
`self.reconnect()`, then the wrapped body; on a normal return
`self.disconnect()` runs before returning, while a raised failure propagates
out of the wrapper and `self.disconnect()` is not reached. -/
def atomicRun {ρ α : Type} (sfr : Option (List StatusCode)) (extract : ρ → α)
    (respHeader : ρ → MessageHeader) (s : ClientState) (name : String)
    (stream : List (CallResult ρ)) : Option (ClientState × Nat × OpOutcome α) :=
  let s1 := reconnect s
  match resendLoopRun sfr extract respHeader s1 name stream with
  | none => none
  | some (s2, n, OpOutcome.ok a) => some (disconnect s2, n, OpOutcome.ok a)
  | some (s2, n, out) => some (s2, n, out)

/-- The response of `GetTasks`: a header, the task list, the round number, the
sleep time and the quit flag. -/
structure GetTasksResponse where
  header : MessageHeader
  tasks : List String
  roundNumber : Nat
  sleepTime : Nat
  quit : Bool
  deriving DecidableEq

/-- Embedding of `AggregatorGRPCClient.get_tasks` with its two decorators:
`_atomic_connection` over `_resend_data_on_reconnection` over the body that
stamps the header, calls `self.stub.GetTasks`, validates the response and
returns `(tasks, round_number, sleep_time, quit)`. -/
def runGetTasks (sfr : Option (List StatusCode)) (s : ClientState) (name : String)
    (stream : List (CallResult GetTasksResponse)) :
    Option (ClientState × Nat × OpOutcome (List String × Nat × Nat × Bool)) :=
  atomicRun sfr
    (fun r => (r.tasks, r.roundNumber, r.sleepTime, r.quit))
    (fun r => r.header) s name stream

/-- The response of `GetAggregatedTensor`: a header and the tensor payload. -/
structure GetAggregatedTensorResponse where
  header : MessageHeader
  tensor : String
  deriving DecidableEq

/-- Embedding of `AggregatorGRPCClient.get_aggregated_tensor` with its two
decorators.  The request fields (`tensor_name`, `round_number`, `report`,
`tags`, `require_lossless`) are sent to the server; the server oracle is a
fixed response stream, so they do not influence the modelled result. -/
def runGetAggregatedTensor (sfr : Option (List StatusCode)) (s : ClientState)
    (name : String) (_tensorName : String) (_roundNumber : Nat) (_report : Bool)
    (_tags : List String) (_requireLossless : Bool)
    (stream : List (CallResult GetAggregatedTensorResponse)) :
    Option (ClientState × Nat × OpOutcome String) :=
  atomicRun sfr (fun r => r.tensor) (fun r => r.header) s name stream

/-- The response of `ConnectivityCheck`: only its header is consumed. -/
structure ConnectivityCheckResponse where
  header : MessageHeader
  deriving DecidableEq

/-- Embedding of `connectivity_check` below `_handle_grpc_error`: the
`_atomic_connection` wrapper around the body (no resend layer on this path);
the body returns no payload. -/
def runConnectivityCheckInner (sfr : Option (List StatusCode)) (s : ClientState)
    (name : String) (stream : List (CallResult ConnectivityCheckResponse)) :
    Option (ClientState × Nat × OpOutcome Unit) :=
  let s1 := reconnect s
  match opAttempt sfr (fun _ => ()) (fun r => r.header) s1 name stream with
  | none => none
  | some (s2, n, OpOutcome.ok a, _) => some (disconnect s2, n, OpOutcome.ok a)
  | some (s2, n, out, _) => some (s2, n, out)

/-- Outcome at the boundary of a `_handle_grpc_error` operation: a returned
value, process termination by `exit(1)` after printing a report, or a
propagating validation failure (a `ValueError`, which `except grpc.RpcError`
does not catch). -/
inductive ExitOutcome (α : Type) where
  | ok (a : α)
  | exited (report : String)
  | validationFailure (m : HeaderMismatch)
  deriving DecidableEq

/-- The report printed by `_handle_grpc_error`:
`f"gRPC Error: {error.code()}. Details: {error.details()}"`. -/
def grpcErrorReport (c : StatusCode) (d : String) : String :=
  "gRPC Error: " ++ codeName c ++ ". Details: " ++ d

/-- Embedding of the `_handle_grpc_error` decorator: a raised `grpc.RpcError`
is caught, its code and details are printed, and the process exits with
status 1; any other outcome passes through. -/
def handleGrpcErrorWrap {α : Type} :
    Option (ClientState × Nat × OpOutcome α) →
      Option (ClientState × Nat × ExitOutcome α)
  | none => none
  | some (s, n, OpOutcome.ok a) => some (s, n, ExitOutcome.ok a)
  | some (s, n, OpOutcome.rpcFailure c d) =>
    some (s, n, ExitOutcome.exited (grpcErrorReport c d))
  | some (s, n, OpOutcome.validationFailure m) =>
    some (s, n, ExitOutcome.validationFailure m)

/-- Embedding of `AggregatorGRPCClient.connectivity_check` with its two
decorators `_handle_grpc_error` and `_atomic_connection`. -/
def runConnectivityCheck (sfr : Option (List StatusCode)) (s : ClientState)
    (name : String) (stream : List (CallResult ConnectivityCheckResponse)) :
    Option (ClientState × Nat × ExitOutcome Unit) :=
  handleGrpcErrorWrap (runConnectivityCheckInner sfr s name stream)

/-- Embedding of the `_atomic_connection` decorator in isolation, over an
abstract operation body given as a state transformer: `self.reconnect()`, the
body, and `self.disconnect()` only on the normal-return path — a raised
failure propagates before the `self.disconnect()` line is reached. -/
def atomicConnection {α : Type} (body : ClientState → ClientState × OpOutcome α)
    (s : ClientState) : ClientState × OpOutcome α :=
  let s1 := reconnect s
  match body s1 with
  | (s2, OpOutcome.ok a) => (disconnect s2, OpOutcome.ok a)
  | (s2, out) => (s2, out)

/-- Embedding of the `_resend_data_on_reconnection` decorator in isolation:
the wrapped function is modelled by the list of outcomes of its successive
invocations.  An `UNKNOWN` failure is logged and retried; an `UNAUTHENTICATED`
failure is re-raised; any other raised `RpcError` falls through to the
`continue` and is retried; a validation failure is not an `RpcError` and
propagates; a returned value breaks the loop. -/
def resendOnReconnection {α : Type} : List (OpOutcome α) → Option (OpOutcome α)
  | [] => none
  | OpOutcome.ok a :: _ => some (OpOutcome.ok a)
  | OpOutcome.validationFailure m :: _ => some (OpOutcome.validationFailure m)
  | OpOutcome.rpcFailure c d :: rest =>
    if c = StatusCode.unauthenticated then some (OpOutcome.rpcFailure c d)
    else resendOnReconnection rest

/-- The observability events of channel construction and reconnection. -/
inductive LogEvent where
  | warnInsecureChannel
  | warnClientAuthDisabled
  | debugDisconnecting
  | debugConnecting
  deriving DecidableEq

/-- Events logged while `__init__` opens the first channel: the insecure
warning when TLS is disabled, otherwise the client-auth warning of
`create_tls_channel` when client auth is disabled. -/
def initChannelEvents (tls disableClientAuth : Bool) : List LogEvent :=
  if tls = false then [LogEvent.warnInsecureChannel]
  else if disableClientAuth then [LogEvent.warnClientAuthDisabled]
  else []

/-- Events logged by `reconnect`: the disconnect debug line, then the channel
creation (`create_insecure_channel` logs nothing; `create_tls_channel` warns
when client auth is disabled), then the connect debug line. -/
def reconnectEvents (tls disableClientAuth : Bool) : List LogEvent :=
  [LogEvent.debugDisconnecting]
    ++ (if tls = false then []
        else if disableClientAuth then [LogEvent.warnClientAuthDisabled]
        else [])
    ++ [LogEvent.debugConnecting]

/-- The configuration and identity fields of the client that are assigned only
in `__init__`: equality of all of them between two states. -/
def configEq (s t : ClientState) : Prop :=
  t.uri = s.uri ∧ t.tls = s.tls ∧ t.disableClientAuth = s.disableClientAuth ∧
  t.rootCertificate = s.rootCertificate ∧ t.certificate = s.certificate ∧
  t.privateKey = s.privateKey ∧ t.aggregatorUuid = s.aggregatorUuid ∧
  t.federationUuid = s.federationUuid ∧
  t.singleColCertCommonName = s.singleColCertCommonName

/-- A concrete client state for witnesses and counterexamples: a plaintext
client with both expected uuids configured and no common-name constraint. -/
def baseState : ClientState :=
  { uri := "agg.example.org:50051", tls := false, disableClientAuth := false,
    rootCertificate := none, certificate := none, privateKey := none,
    channel := { gen := 0, isOpen := true }, header := none,
    aggregatorUuid := some "agg-uuid", federationUuid := some "fed-uuid",
    singleColCertCommonName := none, stub := 0 }

/-- A response header matching the expected identities of `baseState` for the
caller named `collab-1`. -/
def goodHeader : MessageHeader :=
  { sender := "agg-uuid", receiver := "collab-1",
    federationUuid := "fed-uuid", singleColCertCommonName := "" }

/-- The `GetTasks` response of the round-trip scenario:
`(tasks=["train","validate"], round=3, sleep=0, quit=false)`. -/
def goodTasksResponse : GetTasksResponse :=
  { header := goodHeader, tasks := ["train", "validate"],
    roundNumber := 3, sleepTime := 0, quit := false }

/-- The retryable-status set the client installs in `__init__`:
`status_for_retry=(grpc.StatusCode.UNAVAILABLE,)`. -/
def defaultStatusForRetry : Option (List StatusCode) :=
  some [StatusCode.unavailable]

/-- A concrete operation body that raises a transport failure and leaves the
state untouched. -/
def cexRaisingBody : ClientState → ClientState × OpOutcome Nat :=
  fun s => (s, OpOutcome.rpcFailure StatusCode.unavailable "connection refused")

/-- A concrete operation body that returns normally and leaves the state
untouched. -/
def cexOkBody : ClientState → ClientState × OpOutcome Nat :=
  fun s => (s, OpOutcome.ok 7)

/-!
Theorems.  Shared helper lemmas first, then one theorem per claim (with its
witness or counterexample).
-/

theorem interceptCall_rest_length {α : Type} (sfr : Option (List StatusCode)) :
    ∀ (stream : List (CallResult α)) (n : Nat) (r : CallResult α)
      (rest : List (CallResult α)),
      interceptCall sfr stream = some (n, r, rest) → rest.length < stream.length := by
  intro stream
  induction stream with
  | nil => intro n r rest h; simp [interceptCall] at h
  | cons hd tl ih =>
    intro n r rest h
    cases hd with
    | ok a =>
      simp only [interceptCall, Option.some.injEq, Prod.mk.injEq] at h
      obtain ⟨h1, h2, h3⟩ := h
      subst h3
      simp [List.length_cons]
    | rpcError c d =>
      simp only [interceptCall] at h
      by_cases hg : returnWithoutRetry sfr c
      · rw [if_pos hg] at h
        simp only [Option.some.injEq, Prod.mk.injEq] at h
        obtain ⟨h1, h2, h3⟩ := h
        subst h3
        simp [List.length_cons]
      · rw [if_neg hg] at h
        cases hrec : interceptCall sfr tl with
        | none => rw [hrec] at h; exact absurd h (by simp)
        | some v =>
          obtain ⟨n2, r2, rest2⟩ := v
          rw [hrec] at h
          simp only [Option.some.injEq, Prod.mk.injEq] at h
          obtain ⟨h1, h2, h3⟩ := h
          subst h3
          exact Nat.lt_succ_of_lt (ih n2 r2 rest2 hrec)

theorem opAttempt_state {ρ α : Type} (sfr : Option (List StatusCode))
    (extract : ρ → α) (respHeader : ρ → MessageHeader) (s : ClientState)
    (name : String) (stream : List (CallResult ρ)) (s1 : ClientState) (n : Nat)
    (out : OpOutcome α) (rest : List (CallResult ρ))
    (h : opAttempt sfr extract respHeader s name stream = some (s1, n, out, rest)) :
    s1 = setHeader s name ∧ rest.length < stream.length := by
  simp only [opAttempt] at h
  cases hic : interceptCall sfr stream with
  | none => rw [hic] at h; exact absurd h (by simp)
  | some v =>
    obtain ⟨n2, r2, rest2⟩ := v
    rw [hic] at h
    have hlen := interceptCall_rest_length sfr stream n2 r2 rest2 hic
    cases r2 with
    | rpcError c d =>
      simp only [Option.some.injEq, Prod.mk.injEq] at h
      obtain ⟨h1, h2, h3, h4⟩ := h
      subst h4
      exact ⟨h1.symm, hlen⟩
    | ok resp =>
      dsimp only at h
      cases hv : validateResponse (setHeader s name) (respHeader resp) name with
      | some m =>
        rw [hv] at h
        simp only [Option.some.injEq, Prod.mk.injEq] at h
        obtain ⟨h1, h2, h3, h4⟩ := h
        subst h4
        exact ⟨h1.symm, hlen⟩
      | none =>
        rw [hv] at h
        simp only [Option.some.injEq, Prod.mk.injEq] at h
        obtain ⟨h1, h2, h3, h4⟩ := h
        subst h4
        exact ⟨h1.symm, hlen⟩

/-- C1 (amended): for an operation decorated with `_atomic_connection` whose
body does not itself touch the channel, the channel is freshly reopened on
entry (discarding the previous one), and is closed on exit when the body
returns normally; when the body raises a failure, the wrapper propagates it
without reaching the disconnect, so the freshly opened channel is left open
(the next operation entry closes it, closing being idempotent). -/
theorem atomic_connection_lifecycle {α : Type}
    (body : ClientState → ClientState × OpOutcome α) (s : ClientState)
    (hbody : ∀ t, ((body t).1).channel = t.channel) :
    (reconnect s).channel.isOpen = true
  ∧ (reconnect s).channel.gen = s.channel.gen + 1
  ∧ (∀ a, (body (reconnect s)).2 = OpOutcome.ok a →
      ((atomicConnection body s).1).channel.isOpen = false)
  ∧ (∀ out, (body (reconnect s)).2 = out → (∀ a, out ≠ OpOutcome.ok a) →
      ((atomicConnection body s).1).channel = (reconnect s).channel
    ∧ ((atomicConnection body s).1).channel.isOpen = true) := by
  refine ⟨rfl, rfl, ?_, ?_⟩
  · intro a ha
    rcases hb : body (reconnect s) with ⟨s2, out⟩
    rw [hb] at ha
    simp only at ha
    subst ha
    simp only [atomicConnection, hb, disconnect]
  · intro out hout hne
    rcases hb : body (reconnect s) with ⟨s2, out2⟩
    rw [hb] at hout
    simp only at hout
    subst hout
    have hch : s2.channel = (reconnect s).channel := by
      have := hbody (reconnect s)
      rw [hb] at this
      exact this
    cases out2 with
    | ok a => exact absurd rfl (hne a)
    | rpcFailure c d =>
      constructor
      · simp only [atomicConnection, hb]
        exact hch
      · simp only [atomicConnection, hb]
        rw [hch]
        rfl
    | validationFailure m =>
      constructor
      · simp only [atomicConnection, hb]
        exact hch
      · simp only [atomicConnection, hb]
        rw [hch]
        rfl

/-- C1 witness: the amended lifecycle theorem applied to a concrete
channel-preserving body and state. -/
theorem atomic_connection_lifecycle_witness :
    (reconnect baseState).channel.isOpen = true
  ∧ ((atomicConnection cexOkBody baseState).1).channel.isOpen = false := by
  have h := atomic_connection_lifecycle cexOkBody baseState (fun t => rfl)
  exact ⟨h.1, h.2.2.1 7 rfl⟩

/-- C1 counterexample: a body that raises a transport failure - the wrapper
propagates the failure and the channel is still open on exit, so the claim
that the channel is closed on exit in every case is false. -/
theorem atomic_connection_open_after_raise_cex :
    (atomicConnection cexRaisingBody baseState).2
      = OpOutcome.rpcFailure StatusCode.unavailable "connection refused"
  ∧ ((atomicConnection cexRaisingBody baseState).1).channel.isOpen = true :=
  ⟨rfl, rfl⟩

theorem interceptCall_retryable_run {α : Type} (l : List StatusCode) (a : α)
    (rest : List (CallResult α)) :
    ∀ errs : List (StatusCode × String), (∀ p ∈ errs, p.1 ∈ l) →
      interceptCall (some l)
          (errs.map (fun p => CallResult.rpcError p.1 p.2)
            ++ CallResult.ok a :: rest)
        = some (errs.length, CallResult.ok a, rest) := by
  intro errs
  induction errs with
  | nil => intro _; simp [interceptCall]
  | cons p tl ih =>
    intro herrs
    have hp : p.1 ∈ l := herrs p (List.mem_cons_self p tl)
    have htl : ∀ q ∈ tl, q.1 ∈ l := fun q hq => herrs q (List.mem_cons_of_mem p hq)
    have hg : returnWithoutRetry (some l) p.1 = false := by
      simp [returnWithoutRetry, hp]
    simp only [List.map_cons, List.cons_append, interceptCall, hg,
      Bool.false_eq_true, if_false, List.append_eq, List.length_cons]
    rw [ih htl]

/-- C3: with a non-empty retryable set, a run of N retryable failures followed
by a success makes the interceptor perform exactly N backoff waits and return
the successful result; a first-attempt failure whose status is outside the
non-empty set is returned immediately with zero backoff waits. -/
theorem interceptor_retry_count {α : Type} (l : List StatusCode) (hl : l ≠ [])
    (errs : List (StatusCode × String)) (herrs : ∀ p ∈ errs, p.1 ∈ l) (a : α)
    (rest : List (CallResult α)) :
    interceptCall (some l)
        (errs.map (fun p => CallResult.rpcError p.1 p.2)
          ++ CallResult.ok a :: rest)
      = some (errs.length, CallResult.ok a, rest)
  ∧ ∀ (c : StatusCode) (d : String) (rest2 : List (CallResult α)), c ∉ l →
      interceptCall (some l) (CallResult.rpcError c d :: rest2)
        = some (0, CallResult.rpcError c d, rest2) := by
  constructor
  · exact interceptCall_retryable_run l a rest errs herrs
  · intro c d rest2 hc
    have hg : returnWithoutRetry (some l) c = true := by
      simp [returnWithoutRetry, statusTupleTruthy, hl, hc]
    simp [interceptCall, hg]

/-- C3 witness: two `UNAVAILABLE` failures then success give exactly two waits
and the success; a first-attempt `INTERNAL` failure is returned with zero
waits. -/
theorem interceptor_retry_count_witness :
    interceptCall (some [StatusCode.unavailable])
        [CallResult.rpcError StatusCode.unavailable "down",
         CallResult.rpcError StatusCode.unavailable "down",
         CallResult.ok (42 : Nat)]
      = some (2, CallResult.ok 42, [])
  ∧ interceptCall (some [StatusCode.unavailable])
        ([CallResult.rpcError StatusCode.internal "boom"] : List (CallResult Nat))
      = some (0, CallResult.rpcError StatusCode.internal "boom", []) := by
  have h := interceptor_retry_count [StatusCode.unavailable] (by decide)
      [(StatusCode.unavailable, "down"), (StatusCode.unavailable, "down")]
      (by decide) (42 : Nat) []
  exact ⟨h.1, h.2 StatusCode.internal "boom" [] (by decide)⟩

/-- C10: when the retryable-status set is absent or empty (falsy in Python),
every transport failure triggers a backoff wait and an unconditional retry,
whatever its status code, and the immediate-return branch is unreachable: a
result that the interceptor does return is never a failure. -/
theorem interceptor_falsy_set_always_retries {α : Type}
    (sfr : Option (List StatusCode)) (hsfr : statusTupleTruthy sfr = false) :
    (∀ (errs : List (StatusCode × String)) (a : α) (rest : List (CallResult α)),
        interceptCall sfr
            (errs.map (fun p => CallResult.rpcError p.1 p.2)
              ++ CallResult.ok a :: rest)
          = some (errs.length, CallResult.ok a, rest))
  ∧ (∀ (stream : List (CallResult α)) (n : Nat) (r : CallResult α)
        (rest : List (CallResult α)),
        interceptCall sfr stream = some (n, r, rest) → ∃ x, r = CallResult.ok x) := by
  have hg : ∀ c, returnWithoutRetry sfr c = false := by
    intro c
    simp [returnWithoutRetry, hsfr]
  constructor
  · intro errs a rest
    induction errs with
    | nil => simp [interceptCall]
    | cons p tl ih =>
      simp only [List.map_cons, List.cons_append, interceptCall, hg,
        Bool.false_eq_true, if_false, List.append_eq, List.length_cons]
      rw [ih]
  · intro stream
    induction stream with
    | nil => intro n r rest h; simp [interceptCall] at h
    | cons hd tl ih =>
      intro n r rest h
      cases hd with
      | ok a =>
        simp only [interceptCall, Option.some.injEq, Prod.mk.injEq] at h
        exact ⟨a, h.2.1.symm⟩
      | rpcError c d =>
        simp only [interceptCall, hg, Bool.false_eq_true, if_false] at h
        cases hrec : interceptCall sfr tl with
        | none => rw [hrec] at h; exact absurd h (by simp)
        | some v =>
          obtain ⟨n2, r2, rest2⟩ := v
          rw [hrec] at h
          simp only [Option.some.injEq, Prod.mk.injEq] at h
          obtain ⟨h1, h2, h3⟩ := h
          subst h2
          exact ih n2 r2 rest2 hrec

/-- C10 witness: with the empty retryable set, an `INTERNAL` and an
`UNAVAILABLE` failure are both retried with one wait each before the
success. -/
theorem interceptor_falsy_set_always_retries_witness :
    interceptCall (some [])
        [CallResult.rpcError StatusCode.internal "boom",
         CallResult.rpcError StatusCode.unavailable "down",
         CallResult.ok (7 : Nat)]
      = some (2, CallResult.ok 7, []) := by
  have h := interceptor_falsy_set_always_retries (α := Nat) (some []) (by decide)
  exact h.1 [(StatusCode.internal, "boom"), (StatusCode.unavailable, "down")] 7 []

/-- C2 (amended): in the facade-level resend loop, an `UNKNOWN` failure is
silently retried and an authentication failure is re-raised immediately and
never retried; the loop terminates only on success or on an authentication
failure - every other transport-failure status is likewise retried, not
propagated. -/
theorem resend_loop_semantics {α : Type} (d : String) (rest : List (OpOutcome α))
    (c : StatusCode) (hc : c ≠ StatusCode.unauthenticated) :
    resendOnReconnection (OpOutcome.rpcFailure StatusCode.unknown d :: rest)
      = resendOnReconnection rest
  ∧ resendOnReconnection (OpOutcome.rpcFailure StatusCode.unauthenticated d :: rest)
      = some (OpOutcome.rpcFailure StatusCode.unauthenticated d)
  ∧ resendOnReconnection (OpOutcome.rpcFailure c d :: rest)
      = resendOnReconnection rest
  ∧ ∀ (l : List (OpOutcome α)) (r : OpOutcome α),
      (∀ o ∈ l, ∀ m, o ≠ OpOutcome.validationFailure m) →
      resendOnReconnection l = some r →
      (∃ a, r = OpOutcome.ok a)
    ∨ (∃ e, r = OpOutcome.rpcFailure StatusCode.unauthenticated e) := by
  refine ⟨?_, ?_, ?_, ?_⟩
  · simp [resendOnReconnection]
  · simp [resendOnReconnection]
  · simp [resendOnReconnection, hc]
  · intro l
    induction l with
    | nil => intro r hval h; simp [resendOnReconnection] at h
    | cons hd tl ih =>
      intro r hval h
      have hvtl : ∀ o ∈ tl, ∀ m, o ≠ OpOutcome.validationFailure m :=
        fun o ho => hval o (List.mem_cons_of_mem hd ho)
      cases hd with
      | ok a =>
        simp only [resendOnReconnection, Option.some.injEq] at h
        exact Or.inl ⟨a, h.symm⟩
      | validationFailure m =>
        exact absurd rfl (hval (OpOutcome.validationFailure m)
          (List.mem_cons_self _ tl) m)
      | rpcFailure c2 d2 =>
        by_cases hc2 : c2 = StatusCode.unauthenticated
        · subst hc2
          simp only [resendOnReconnection, if_pos rfl, if_true,
            Option.some.injEq] at h
          exact Or.inr ⟨d2, h.symm⟩
        · simp only [resendOnReconnection, if_neg hc2] at h
          exact ih r hvtl h

/-- C2 witness: an `UNKNOWN` failure is retried and the next success is
returned; a first-attempt authentication failure is re-raised immediately. -/
theorem resend_loop_semantics_witness :
    resendOnReconnection
        [OpOutcome.rpcFailure StatusCode.unknown "net", OpOutcome.ok (5 : Nat)]
      = resendOnReconnection [OpOutcome.ok (5 : Nat)]
  ∧ resendOnReconnection
        ([OpOutcome.rpcFailure StatusCode.unauthenticated "denied"] :
          List (OpOutcome Nat))
      = some (OpOutcome.rpcFailure StatusCode.unauthenticated "denied") := by
  have h1 := resend_loop_semantics (α := Nat) "net" [OpOutcome.ok 5]
      StatusCode.internal (by decide)
  have h2 := resend_loop_semantics (α := Nat) "denied" []
      StatusCode.internal (by decide)
  exact ⟨h1.1, h2.2.1⟩

/-- C2 counterexample: an `INTERNAL` failure (a status that is neither the
transient `UNKNOWN` nor an authentication failure) is retried by the resend
loop and the next success is returned, instead of the failure being propagated
to the caller as the claim states. -/
theorem resend_retries_nonretryable_cex :
    resendOnReconnection
        [OpOutcome.rpcFailure StatusCode.internal "boom", OpOutcome.ok (42 : Nat)]
      = some (OpOutcome.ok 42)
  ∧ resendOnReconnection
        [OpOutcome.rpcFailure StatusCode.internal "boom", OpOutcome.ok (42 : Nat)]
      ≠ some (OpOutcome.rpcFailure StatusCode.internal "boom") := by
  exact ⟨rfl, by decide⟩

/-- C5 (amended): in plaintext mode every channel open succeeds - `reconnect`
always yields a fresh open channel - but the insecure-channel warning is
emitted exactly once, by the construction-time open in `__init__`; the opens
performed by `reconnect` emit no insecure-channel warning. -/
theorem plaintext_open_events (d : Bool) (s : ClientState) (h : s.tls = false) :
    (initChannelEvents s.tls d).count LogEvent.warnInsecureChannel = 1
  ∧ (reconnectEvents s.tls d).count LogEvent.warnInsecureChannel = 0
  ∧ (reconnect s).channel.isOpen = true
  ∧ (reconnect s).channel.gen = s.channel.gen + 1 := by
  rw [h]
  exact ⟨rfl, rfl, rfl, rfl⟩

/-- C5 witness: the amended theorem applied to the concrete plaintext client
state. -/
theorem plaintext_open_events_witness :
    (initChannelEvents baseState.tls false).count LogEvent.warnInsecureChannel = 1
  ∧ (reconnectEvents baseState.tls false).count LogEvent.warnInsecureChannel = 0 := by
  have h := plaintext_open_events false baseState rfl
  exact ⟨h.1, h.2.1⟩

/-- C5 counterexample: the open performed by `reconnect` in plaintext mode
emits zero insecure-channel warnings (`create_insecure_channel` does not log
the warning; only `__init__` does), refuting exactly one warning per open. -/
theorem reconnect_no_insecure_warning_cex :
    (reconnectEvents false false).count LogEvent.warnInsecureChannel = 0
  ∧ (reconnectEvents false false).count LogEvent.warnInsecureChannel ≠ 1 := by
  exact ⟨rfl, by decide⟩

/-- C4: with both expected uuids configured, response-header validation
succeeds iff all four header fields equal the expected identities (receiver
the caller name, sender the aggregator uuid, the federation uuid, and the
common name equal to the configured common name or the empty string when
unset); the checks run in the order receiver, sender, federation, common name
and fail fast identifying the first mismatched field; and every single-field
mutation of a valid header fails identifying that field. -/
theorem validate_response_characterisation (s : ClientState) (a f : String)
    (ha : s.aggregatorUuid = some a) (hf : s.federationUuid = some f)
    (h : MessageHeader) (name : String) :
    (validateResponse s h name = none ↔
      (h.receiver = name ∧ h.sender = a ∧ h.federationUuid = f ∧
        h.singleColCertCommonName = pyOr s.singleColCertCommonName ""))
  ∧ (h.receiver ≠ name →
      (validateResponse s h name).map (fun m => m.field)
        = some HeaderField.receiver)
  ∧ (h.receiver = name → h.sender ≠ a →
      (validateResponse s h name).map (fun m => m.field)
        = some HeaderField.sender)
  ∧ (h.receiver = name → h.sender = a → h.federationUuid ≠ f →
      (validateResponse s h name).map (fun m => m.field)
        = some HeaderField.federation)
  ∧ (h.receiver = name → h.sender = a → h.federationUuid = f →
      h.singleColCertCommonName ≠ pyOr s.singleColCertCommonName "" →
      (validateResponse s h name).map (fun m => m.field)
        = some HeaderField.commonName)
  ∧ (validateResponse s h name = none →
      (∀ v, v ≠ h.receiver →
        (validateResponse s { h with receiver := v } name).map (fun m => m.field)
          = some HeaderField.receiver)
    ∧ (∀ v, v ≠ h.sender →
        (validateResponse s { h with sender := v } name).map (fun m => m.field)
          = some HeaderField.sender)
    ∧ (∀ v, v ≠ h.federationUuid →
        (validateResponse s { h with federationUuid := v } name).map
            (fun m => m.field)
          = some HeaderField.federation)
    ∧ (∀ v, v ≠ h.singleColCertCommonName →
        (validateResponse s { h with singleColCertCommonName := v } name).map
            (fun m => m.field)
          = some HeaderField.commonName)) := by
  have b2 : ∀ x : String, strEqOpt x s.aggregatorUuid = decide (x = a) :=
    fun x => by rw [ha]; simp [strEqOpt]
  have b3 : ∀ x : String, strEqOpt x s.federationUuid = decide (x = f) :=
    fun x => by rw [hf]; simp [strEqOpt]
  have hiff : validateResponse s h name = none ↔
      (h.receiver = name ∧ h.sender = a ∧ h.federationUuid = f ∧
        h.singleColCertCommonName = pyOr s.singleColCertCommonName "") := by
    by_cases h1 : h.receiver = name <;>
      by_cases h2 : h.sender = a <;>
        by_cases h3 : h.federationUuid = f <;>
          by_cases h4 : h.singleColCertCommonName = pyOr s.singleColCertCommonName "" <;>
            simp [validateResponse, b2, b3, h1, h2, h3, h4]
  refine ⟨hiff, ?_, ?_, ?_, ?_, ?_⟩
  · intro h1
    simp [validateResponse, h1]
  · intro h1 h2
    simp [validateResponse, b2, h1, h2]
  · intro h1 h2 h3
    simp [validateResponse, b2, b3, h1, h2, h3]
  · intro h1 h2 h3 h4
    simp [validateResponse, b2, b3, h1, h2, h3, h4]
  · intro hnone
    obtain ⟨e1, e2, e3, e4⟩ := hiff.mp hnone
    refine ⟨?_, ?_, ?_, ?_⟩
    · intro v hv
      have hvne : v ≠ name := by rw [← e1]; exact hv
      simp [validateResponse, hvne]
    · intro v hv
      have hvne : v ≠ a := by rw [← e2]; exact hv
      simp [validateResponse, b2, e1, hvne]
    · intro v hv
      have hvne : v ≠ f := by rw [← e3]; exact hv
      simp [validateResponse, b2, b3, e1, e2, hvne]
    · intro v hv
      have hvne : v ≠ pyOr s.singleColCertCommonName "" := by rw [← e4]; exact hv
      simp [validateResponse, b2, b3, e1, e2, e3, hvne]

/-- C4 witness: validation of the matching header succeeds, and mutating its
sender makes validation fail identifying the sender field. -/
theorem validate_response_characterisation_witness :
    validateResponse baseState goodHeader "collab-1" = none
  ∧ (validateResponse baseState { goodHeader with sender := "evil" }
        "collab-1").map (fun m => m.field) = some HeaderField.sender := by
  have h := validate_response_characterisation baseState "agg-uuid" "fed-uuid"
      rfl rfl goodHeader "collab-1"
  have hvalid : validateResponse baseState goodHeader "collab-1" = none :=
    h.1.mpr ⟨rfl, rfl, rfl, rfl⟩
  exact ⟨hvalid, (h.2.2.2.2.2 hvalid).2.1 "evil" (by decide)⟩

theorem configEq_setHeader (s : ClientState) (name : String) :
    configEq s (setHeader s name) :=
  ⟨rfl, rfl, rfl, rfl, rfl, rfl, rfl, rfl, rfl⟩

theorem configEq_reconnect (s : ClientState) : configEq s (reconnect s) :=
  ⟨rfl, rfl, rfl, rfl, rfl, rfl, rfl, rfl, rfl⟩

theorem configEq_disconnect (s : ClientState) : configEq s (disconnect s) :=
  ⟨rfl, rfl, rfl, rfl, rfl, rfl, rfl, rfl, rfl⟩

theorem configEq_trans {s t u : ClientState} (h1 : configEq s t)
    (h2 : configEq t u) : configEq s u := by
  obtain ⟨a1, a2, a3, a4, a5, a6, a7, a8, a9⟩ := h1
  obtain ⟨b1, b2, b3, b4, b5, b6, b7, b8, b9⟩ := h2
  exact ⟨b1.trans a1, b2.trans a2, b3.trans a3, b4.trans a4, b5.trans a5,
    b6.trans a6, b7.trans a7, b8.trans a8, b9.trans a9⟩

theorem resendLoopAux_config {ρ α : Type} (sfr : Option (List StatusCode))
    (extract : ρ → α) (respHeader : ρ → MessageHeader) :
    ∀ (fuel : Nat) (s : ClientState) (name : String)
      (stream : List (CallResult ρ)) (s2 : ClientState) (n : Nat)
      (out : OpOutcome α),
      resendLoopAux sfr extract respHeader fuel s name stream = some (s2, n, out) →
      configEq s s2 := by
  intro fuel
  induction fuel with
  | zero => intro s name stream s2 n out h; simp [resendLoopAux] at h
  | succ fuel ih =>
    intro s name stream s2 n out h
    simp only [resendLoopAux] at h
    cases hatt : opAttempt sfr extract respHeader s name stream with
    | none => rw [hatt] at h; exact absurd h (by simp)
    | some v =>
      obtain ⟨s1, n1, out1, rest⟩ := v
      rw [hatt] at h
      have hs1 : s1 = setHeader s name :=
        (opAttempt_state sfr extract respHeader s name stream s1 n1 out1 rest hatt).1
      have hcfg1 : configEq s s1 := hs1 ▸ configEq_setHeader s name
      cases out1 with
      | ok a =>
        simp only [Option.some.injEq, Prod.mk.injEq] at h
        obtain ⟨hh1, hh2, hh3⟩ := h
        exact hh1 ▸ hcfg1
      | validationFailure m =>
        simp only [Option.some.injEq, Prod.mk.injEq] at h
        obtain ⟨hh1, hh2, hh3⟩ := h
        exact hh1 ▸ hcfg1
      | rpcFailure c d =>
        dsimp only at h
        by_cases hc : c = StatusCode.unauthenticated
        · rw [if_pos hc] at h
          simp only [Option.some.injEq, Prod.mk.injEq] at h
          obtain ⟨hh1, hh2, hh3⟩ := h
          exact hh1 ▸ hcfg1
        · rw [if_neg hc] at h
          cases hrec : resendLoopAux sfr extract respHeader fuel s1 name rest with
          | none => rw [hrec] at h; exact absurd h (by simp)
          | some w =>
            obtain ⟨s3, n3, out3⟩ := w
            rw [hrec] at h
            simp only [Option.some.injEq, Prod.mk.injEq] at h
            obtain ⟨hh1, hh2, hh3⟩ := h
            exact hh1 ▸ configEq_trans hcfg1 (ih s1 name rest s3 n3 out3 hrec)

/-- C6 (amended): the endpoint, security configuration and identity fields
(uri, tls flag, credential material, aggregator uuid, federation uuid, common
name) are never mutated by a lifecycle-wrapped client operation - they are
fixed at construction.  The channel is not the only mutable field, however:
the stub is rebuilt on every reconnect and the header is restamped on every
call (see the counterexample). -/
theorem client_operations_preserve_config {ρ α : Type}
    (sfr : Option (List StatusCode)) (extract : ρ → α)
    (respHeader : ρ → MessageHeader) (s : ClientState) (name : String)
    (stream : List (CallResult ρ)) (s2 : ClientState) (n : Nat)
    (out : OpOutcome α)
    (h : atomicRun sfr extract respHeader s name stream = some (s2, n, out)) :
    configEq s s2 := by
  simp only [atomicRun, resendLoopRun] at h
  cases hrl : resendLoopAux sfr extract respHeader (stream.length + 1)
      (reconnect s) name stream with
  | none => rw [hrl] at h; exact absurd h (by simp)
  | some w =>
    obtain ⟨s3, n3, out3⟩ := w
    rw [hrl] at h
    have hcfg : configEq s s3 :=
      configEq_trans (configEq_reconnect s)
        (resendLoopAux_config sfr extract respHeader (stream.length + 1)
          (reconnect s) name stream s3 n3 out3 hrl)
    cases out3 with
    | ok a =>
      simp only [Option.some.injEq, Prod.mk.injEq] at h
      obtain ⟨hh1, hh2, hh3⟩ := h
      exact hh1 ▸ configEq_trans hcfg (configEq_disconnect s3)
    | validationFailure m =>
      simp only [Option.some.injEq, Prod.mk.injEq] at h
      obtain ⟨hh1, hh2, hh3⟩ := h
      exact hh1 ▸ hcfg
    | rpcFailure c d =>
      simp only [Option.some.injEq, Prod.mk.injEq] at h
      obtain ⟨hh1, hh2, hh3⟩ := h
      exact hh1 ▸ hcfg

/-- C6 witness: the frame theorem applied to a concrete successful
`get_tasks` run. -/
theorem client_operations_preserve_config_witness :
    configEq baseState (disconnect (setHeader (reconnect baseState) "collab-1")) :=
  client_operations_preserve_config defaultStatusForRetry
    (fun r : GetTasksResponse => (r.tasks, r.roundNumber, r.sleepTime, r.quit))
    (fun r : GetTasksResponse => r.header)
    baseState "collab-1" [CallResult.ok goodTasksResponse]
    (disconnect (setHeader (reconnect baseState) "collab-1")) 0
    (OpOutcome.ok (["train", "validate"], 3, 0, false)) rfl

/-- C6 counterexample: a successful `get_tasks` call mutates the `header`
field of the client (from `none` to the freshly stamped header), so the
channel is not the only client field a public operation mutates. -/
theorem get_tasks_mutates_header_cex :
    baseState.header = none
  ∧ (runGetTasks defaultStatusForRetry baseState "collab-1"
        [CallResult.ok goodTasksResponse]).map (fun r => r.1.header)
      = some (some { sender := "collab-1", receiver := "agg-uuid",
                     federationUuid := "fed-uuid",
                     singleColCertCommonName := "" }) :=
  ⟨rfl, rfl⟩

/-- C7: on the terminal-failure path of `connectivity_check` (the same
`_handle_grpc_error` wrapper guards the four admin operations), every
transport failure raised during the call is caught, reported with its status
code and detail text, and the process is terminated with exit status 1 - the
failure is neither returned to the caller nor retried. -/
theorem terminal_failure_reports_and_exits (sfr : Option (List StatusCode))
    (s : ClientState) (name : String)
    (stream : List (CallResult ConnectivityCheckResponse)) (s2 : ClientState)
    (n : Nat) (c : StatusCode) (d : String)
    (h : runConnectivityCheckInner sfr s name stream
      = some (s2, n, OpOutcome.rpcFailure c d)) :
    runConnectivityCheck sfr s name stream
      = some (s2, n, ExitOutcome.exited (grpcErrorReport c d))
  ∧ grpcErrorReport c d = "gRPC Error: " ++ codeName c ++ ". Details: " ++ d := by
  constructor
  · simp only [runConnectivityCheck, h, handleGrpcErrorWrap]
  · rfl

/-- C7 witness: a concrete `INTERNAL` transport failure on the connectivity
check produces the printed report and process exit. -/
theorem terminal_failure_reports_and_exits_witness :
    runConnectivityCheck defaultStatusForRetry baseState "collab-1"
        [CallResult.rpcError StatusCode.internal "boom"]
      = some (setHeader (reconnect baseState) "collab-1", 0,
          ExitOutcome.exited "gRPC Error: StatusCode.INTERNAL. Details: boom") := by
  have h := terminal_failure_reports_and_exits defaultStatusForRetry baseState
      "collab-1" [CallResult.rpcError StatusCode.internal "boom"]
      (setHeader (reconnect baseState) "collab-1") 0 StatusCode.internal "boom"
      rfl
  rw [h.1]
  rfl

/-- C8: an authentication failure on `get_aggregated_tensor` is raised to the
caller with zero backoff waits, passing through both the interceptor layer
(the retryable set being non-empty and not containing `UNAUTHENTICATED`) and
the facade resend layer without a single retry. -/
theorem get_aggregated_tensor_auth_failure (sfr : Option (List StatusCode))
    (hne : statusTupleTruthy sfr = true)
    (hnot : StatusCode.unauthenticated ∉ sfr.getD []) (s : ClientState)
    (name tensorName : String) (roundNumber : Nat) (report : Bool)
    (tags : List String) (requireLossless : Bool) (d : String)
    (rest : List (CallResult GetAggregatedTensorResponse)) :
    runGetAggregatedTensor sfr s name tensorName roundNumber report tags
        requireLossless
        (CallResult.rpcError StatusCode.unauthenticated d :: rest)
      = some (setHeader (reconnect s) name, 0,
          OpOutcome.rpcFailure StatusCode.unauthenticated d) := by
  have hg : returnWithoutRetry sfr StatusCode.unauthenticated = true := by
    simp [returnWithoutRetry, hne, hnot]
  have hic : interceptCall sfr
      (CallResult.rpcError StatusCode.unauthenticated d :: rest)
      = some (0, CallResult.rpcError StatusCode.unauthenticated d, rest) := by
    simp [interceptCall, hg]
  have hatt : opAttempt sfr (fun r : GetAggregatedTensorResponse => r.tensor)
      (fun r : GetAggregatedTensorResponse => r.header) (reconnect s) name
      (CallResult.rpcError StatusCode.unauthenticated d :: rest)
      = some (setHeader (reconnect s) name, 0,
          OpOutcome.rpcFailure StatusCode.unauthenticated d, rest) := by
    simp only [opAttempt]
    rw [hic]
  have hloop : resendLoopAux sfr (fun r : GetAggregatedTensorResponse => r.tensor)
      (fun r : GetAggregatedTensorResponse => r.header)
      ((CallResult.rpcError StatusCode.unauthenticated d :: rest).length + 1)
      (reconnect s) name
      (CallResult.rpcError StatusCode.unauthenticated d :: rest)
      = some (setHeader (reconnect s) name, 0,
          OpOutcome.rpcFailure StatusCode.unauthenticated d) := by
    simp only [List.length_cons, resendLoopAux]
    rw [hatt]
    simp
  simp only [runGetAggregatedTensor, atomicRun, resendLoopRun, List.length_cons]
  rw [show rest.length + 1 + 1
      = (CallResult.rpcError StatusCode.unauthenticated d :: rest).length + 1 by
    simp [List.length_cons]]
  rw [hloop]

/-- C8 witness: with the default retryable set `(UNAVAILABLE,)`, a
first-attempt authentication failure surfaces with zero backoff waits. -/
theorem get_aggregated_tensor_auth_failure_witness :
    statusTupleTruthy defaultStatusForRetry = true
  ∧ runGetAggregatedTensor defaultStatusForRetry baseState "collab-1" "w" 3
        false [] true
        [CallResult.rpcError StatusCode.unauthenticated "denied"]
      = some (setHeader (reconnect baseState) "collab-1", 0,
          OpOutcome.rpcFailure StatusCode.unauthenticated "denied") := by
  refine ⟨rfl, ?_⟩
  exact get_aggregated_tensor_auth_failure defaultStatusForRetry rfl (by decide)
    baseState "collab-1" "w" 3 false [] true "denied" []

/-- C9: when the server responds to `get_tasks` with a header matching the
expected identities, the caller receives exactly the four-tuple
`(tasks, round_number, sleep_time, quit)` of the response. -/
theorem get_tasks_roundtrip (sfr : Option (List StatusCode)) (s : ClientState)
    (name : String) (resp : GetTasksResponse)
    (h1 : resp.header.receiver = name)
    (h2 : strEqOpt resp.header.sender s.aggregatorUuid = true)
    (h3 : strEqOpt resp.header.federationUuid s.federationUuid = true)
    (h4 : resp.header.singleColCertCommonName = pyOr s.singleColCertCommonName "") :
    runGetTasks sfr s name [CallResult.ok resp]
      = some (disconnect (setHeader (reconnect s) name), 0,
          OpOutcome.ok (resp.tasks, resp.roundNumber, resp.sleepTime, resp.quit)) := by
  have hv : validateResponse (setHeader (reconnect s) name) resp.header name
      = none := by
    simp only [validateResponse, h1, h2, h3, h4, if_pos rfl, if_true]
    have e2 : strEqOpt resp.header.sender
        (setHeader (reconnect s) name).aggregatorUuid = true := h2
    have e3 : strEqOpt resp.header.federationUuid
        (setHeader (reconnect s) name).federationUuid = true := h3
    simp only [e2, e3, h4, if_true]
    exact if_pos rfl
  have hatt : opAttempt sfr
      (fun r : GetTasksResponse => (r.tasks, r.roundNumber, r.sleepTime, r.quit))
      (fun r : GetTasksResponse => r.header) (reconnect s) name
      [CallResult.ok resp]
      = some (setHeader (reconnect s) name, 0,
          OpOutcome.ok (resp.tasks, resp.roundNumber, resp.sleepTime, resp.quit),
          []) := by
    simp only [opAttempt, interceptCall]
    rw [hv]
  have hloop : resendLoopAux sfr
      (fun r : GetTasksResponse => (r.tasks, r.roundNumber, r.sleepTime, r.quit))
      (fun r : GetTasksResponse => r.header)
      (([CallResult.ok resp] : List (CallResult GetTasksResponse)).length + 1)
      (reconnect s) name [CallResult.ok resp]
      = some (setHeader (reconnect s) name, 0,
          OpOutcome.ok (resp.tasks, resp.roundNumber, resp.sleepTime, resp.quit)) := by
    simp only [List.length_cons, List.length_nil, resendLoopAux]
    rw [hatt]
  simp only [runGetTasks, atomicRun, resendLoopRun]
  rw [hloop]

/-- C9 witness: the fake server returns
`(tasks=["train","validate"], round=3, sleep=0, quit=false)` with a matching
header, and `get_tasks("collab-1")` yields exactly that tuple. -/
theorem get_tasks_roundtrip_witness :
    runGetTasks defaultStatusForRetry baseState "collab-1"
        [CallResult.ok goodTasksResponse]
      = some (disconnect (setHeader (reconnect baseState) "collab-1"), 0,
          OpOutcome.ok (["train", "validate"], 3, 0, false)) := by
  exact get_tasks_roundtrip defaultStatusForRetry baseState "collab-1"
    goodTasksResponse rfl rfl rfl rfl

end OpenFL
